import Mathlib

/-!
Verification of the atomic-swaps repository (dileban/atomic-swaps).

The repository implements a Hashed Time-Lock Contract (HTLC) twice:
once as a Hyperledger Fabric chaincode pair
(fabric/chaincode/swaps/crosschainswap.go + crosschainswapcc.go,
fabric/chaincode/token + lib/asset/fungible) and once as a Solidity
contract (ethereum/contracts/AtomicSwap.sol with an ERC20
StandardToken).  This file shallowly embeds both implementations and
proves properties of the swap state machine, its timing guards, its
error behaviour and its interaction with the underlying token ledger.
-/

namespace AtomicSwaps

/-- Result of a Go function in the Fabric chaincode: a normal value, an
error value (fmt.Errorf return), or a runtime panic.  Error payload type
is a parameter so each embedded function can report its own error shape. -/
inductive GoRes (ε : Type) (α : Type) where
  | ok : α → GoRes ε α
  | err : ε → GoRes ε α
  | panicked : String → GoRes ε α
deriving DecidableEq

namespace GoRes

/-- True when the result is a normal (non-error, non-panic) value. -/
def isOk {ε α : Type} : GoRes ε α → Bool
  | .ok _ => true
  | _ => false

end GoRes

/-- Reduction modulo 2^64, the wrap-around of Go's uint64 additions. -/
def u64 (n : Nat) : Nat := n % 18446744073709551616

/-- Wrap-around of Go's int64 arithmetic (two's complement). -/
def i64 (x : Int) : Int :=
  (x + 9223372036854775808) % 18446744073709551616 - 9223372036854775808

namespace Fabric

/-- Balance struct of the Fabric token (lib Token implementation):
an Approved map (absent keys read as 0, as for a Go map) and the
Available amount.  The zero value of the struct, returned by getBalance
for an absent ledger key, is the everywhere-0 function with available 0. -/
structure Balance where
  approved : String → Nat
  available : Nat

/-- State of one Fabric token chaincode: its key-value namespace maps an
owner address to a Balance.  getBalance returns the zero Balance for an
absent key and putBalance always writes, so the namespace is modelled as
a total map with zero defaults. -/
structure TokenState where
  balances : String → Balance

/-- The zero value of Balance: nil Approved map (reads 0) and 0 available. -/
def Balance.zero : Balance := ⟨fun _ => 0, 0⟩

/-- putBalance of the token implementation: write one owner's balance. -/
def putBalance (owner : String) (bal : Balance) (s : TokenState) : TokenState :=
  ⟨fun a => if a = owner then bal else s.balances a⟩

/-- Error returns of the Fabric token functions, one constructor per
fmt.Errorf site. -/
inductive TokErr where
  | zeroAmount
  | insufficientBalance (who : String)
  | insufficientApproval (who : String)
deriving DecidableEq

/-- Token.Transfer of the Fabric token: move amount from the invoking
sender to the given address.  The receiver's balance is re-read from the
ledger after the sender's balance was written back, exactly as the source
does, so a self-transfer nets to no change. -/
def tokenTransfer (sender toAddr : String) (amount : Nat) (s : TokenState) :
    GoRes TokErr TokenState :=
  if amount = 0 then .err .zeroAmount
  else
    let bal := s.balances sender
    if bal.available < amount then .err (.insufficientBalance sender)
    else
      let s1 := putBalance sender { bal with available := bal.available - amount } s
      let bal2 := s1.balances toAddr
      let s2 := putBalance toAddr { bal2 with available := u64 (bal2.available + amount) } s1
      .ok s2

/-- Token.Approve of the Fabric token.  The source fetches the invoker's
Balance into a local copy, writes the approval into that copy's map and
returns nil without ever calling putBalance, so the persisted ledger
state is returned unchanged. -/
def tokenApprove (sender spender : String) (amount : Nat) (s : TokenState) :
    GoRes TokErr TokenState :=
  if amount = 0 then .err .zeroAmount
  else
    .ok s

/-- Token.TransferFrom of the Fabric token: the invoking sender moves
amount from the approving owner to the receiver, debiting the owner's
approval for the sender. -/
def tokenTransferFrom (sender fromAddr toAddr : String) (amount : Nat) (s : TokenState) :
    GoRes TokErr TokenState :=
  if amount = 0 then .err .zeroAmount
  else
    let bal := s.balances fromAddr
    if bal.approved sender < amount then .err (.insufficientApproval sender)
    else if bal.available < amount then .err (.insufficientBalance sender)
    else
      let s1 := putBalance fromAddr
        { approved := fun a => if a = sender then bal.approved sender - amount else bal.approved a,
          available := bal.available - amount } s
      let bal2 := s1.balances toAddr
      let s2 := putBalance toAddr { bal2 with available := u64 (bal2.available + amount) } s1
      .ok s2

/-- Token.Allowance of the Fabric token: read the owner's persisted
approval for the spender. -/
def tokenAllowance (owner spender : String) (s : TokenState) : Nat :=
  (s.balances owner).approved spender

/-- Agreement struct of crosschainswap.go.  There is no status field in
the Fabric implementation: the record never distinguishes Locked from
settled. -/
structure Agreement where
  owner : String
  counterparty : String
  image : String
  amount : Nat
  tokenContract : String
  expiry : Int
deriving DecidableEq

/-- Combined state visible to the swap chaincode: its own key-value
namespace of agreements (none = absent key, as GetState returning nil),
and one token chaincode namespace per token contract name reachable by
InvokeChaincode. -/
structure SwapState where
  agreements : String → Option Agreement
  tokens : String → TokenState

/-- putAgreement of crosschainswap.go: write one agreement. -/
def putAgreement (agreementID : String) (a : Agreement) (s : SwapState) : SwapState :=
  { s with agreements := fun k => if k = agreementID then some a else s.agreements k }

/-- Replace one token contract's namespace after a chaincode invocation. -/
def putToken (contract : String) (t : TokenState) (s : SwapState) : SwapState :=
  { s with tokens := fun k => if k = contract then t else s.tokens k }

/-- Error returns of the Fabric swap functions, one constructor per
fmt.Errorf site in crosschainswap.go. -/
inductive SwapErr where
  | alreadyExists (agreementID : String)
  | notOwner (owner : String)
  | notYetExpired (expiry : Int)
  | notCounterparty (counterparty : String)
  | expired (expiry : Int)
  | secretMismatch (secret image : String)
  | transferFailed (contract : String) (e : TokErr)
deriving DecidableEq

/-- The Go runtime message raised when the swap functions dereference the
nil Agreement pointer that getAgreement returns for an absent key. -/
def nilDereference : String :=
  "runtime error: invalid memory address or nil pointer dereference"

/-- CrossChainSwap.Lock.  agreementID is the transaction ID
(newAgreementID = GetTxID); the invoker address is derived from the
client certificate; the expiry comes from getExpiryTime, i.e. the
transaction timestamp plus lockTime with int64 wrap-around.  The token
chaincode invocation runs TransferFrom with the same client certificate,
so the sender inside the token chaincode is again the invoker. -/
def fabricLock (txID invoker chaincodeAddress counterparty image : String)
    (amount : Nat) (tokenContract : String) (lockTime txTimestamp : Int)
    (s : SwapState) : GoRes SwapErr (String × SwapState) :=
  let agreementID := txID
  match s.agreements agreementID with
  | some _ => .err (.alreadyExists agreementID)
  | none =>
    let expiry := i64 (txTimestamp + lockTime)
    let agreement : Agreement :=
      { owner := invoker, counterparty := counterparty, image := image,
        amount := amount, tokenContract := tokenContract, expiry := expiry }
    let s1 := putAgreement agreementID agreement s
    match tokenTransferFrom invoker invoker chaincodeAddress amount (s1.tokens tokenContract) with
    | .ok ts => .ok (agreementID, putToken tokenContract ts s1)
    | .err e => .err (.transferFailed tokenContract e)
    | .panicked m => .panicked m

/-- CrossChainSwap.Unlock.  getAgreement returns (nil, nil) for an
absent key and the source then reads agreement.Owner, which panics.  The
expiry guard compares against time.Now().Unix(), the local wall clock of
the executing peer, passed here as wallClockNow.  The token chaincode
invocation runs Transfer with the client certificate, so the sender
inside the token chaincode is the invoker. -/
def fabricUnlock (invoker : String) (wallClockNow : Int) (agreementID : String)
    (s : SwapState) : GoRes SwapErr SwapState :=
  match s.agreements agreementID with
  | none => .panicked nilDereference
  | some agreement =>
    if invoker ≠ agreement.owner then .err (.notOwner agreement.owner)
    else if agreement.expiry > wallClockNow then .err (.notYetExpired agreement.expiry)
    else
      match tokenTransfer invoker agreement.owner agreement.amount
          (s.tokens agreement.tokenContract) with
      | .ok ts => .ok (putToken agreement.tokenContract ts s)
      | .err e => .err (.transferFailed agreement.tokenContract e)
      | .panicked m => .panicked m

/-- CrossChainSwap.Claim.  Same absent-key panic and wall-clock reading
as Unlock; imageOf abstracts the crypto/sha256 hex digest of the secret. -/
def fabricClaim (imageOf : String → String) (invoker : String) (wallClockNow : Int)
    (agreementID secret : String) (s : SwapState) : GoRes SwapErr SwapState :=
  match s.agreements agreementID with
  | none => .panicked nilDereference
  | some agreement =>
    if invoker ≠ agreement.counterparty then .err (.notCounterparty agreement.counterparty)
    else if agreement.expiry < wallClockNow then .err (.expired agreement.expiry)
    else if imageOf secret ≠ agreement.image then .err (.secretMismatch secret agreement.image)
    else
      match tokenTransfer invoker agreement.counterparty agreement.amount
          (s.tokens agreement.tokenContract) with
      | .ok ts => .ok (putToken agreement.tokenContract ts s)
      | .err e => .err (.transferFailed agreement.tokenContract e)
      | .panicked m => .panicked m

/-- The Claimed event struct of the htlc package: it has a single
AgreementID field and no field for the secret. -/
structure ClaimedEvent where
  agreementID : String
deriving DecidableEq

/-- newClaimedEvent of crosschainswapcc.go: the payload set by
ClaimHandler on SetEvent("Claimed", ...) carries only the agreement ID. -/
def newClaimedEvent (agreementID : String) : ClaimedEvent :=
  { agreementID := agreementID }

/-- ClaimHandler of crosschainswapcc.go: run Claim and, on success, emit
the Claimed event built by newClaimedEvent. -/
def fabricClaimHandler (imageOf : String → String) (invoker : String)
    (wallClockNow : Int) (agreementID secret : String) (s : SwapState) :
    GoRes SwapErr (ClaimedEvent × SwapState) :=
  match fabricClaim imageOf invoker wallClockNow agreementID secret s with
  | .ok s1 => .ok (newClaimedEvent agreementID, s1)
  | .err e => .err e
  | .panicked m => .panicked m

/-- Committed ledger state of one Fabric transaction running a swap
operation: the write set is applied only when the chaincode returns
shim.OK; an error response (the handlers wrap every swap error in
shim.Error) or a panic invalidates the transaction and discards all
writes.  This is the host ledger's transaction atomicity from the
concurrency model. -/
def fabricCommit {α : Type} (get : α → SwapState) (r : GoRes SwapErr α)
    (s : SwapState) : SwapState :=
  match r with
  | .ok a => get a
  | _ => s

end Fabric

namespace Eth

/-- 2^256, the modulus of Solidity's uint256 arithmetic. -/
def two256 : Nat :=
  115792089237316195423570985008687907853269984665640564039457584007913129639936

/-- Reduction modulo 2^256, the wrap-around of Solidity 0.4 uint256
arithmetic (used by the unchecked expiry addition in lock). -/
def u256 (n : Nat) : Nat := n % two256

/-- Status enum of AtomicSwap.sol.  locked is the first member, so a
zero-initialized Agreement struct (an absent mapping entry) reads as
locked. -/
inductive Status where
  | locked
  | unlocked
  | claimed
deriving DecidableEq

/-- Agreement struct of AtomicSwap.sol.  Addresses, the bytes32 image
and uint256 fields are modelled as Nat; address 0 is address(0). -/
structure Agreement where
  owner : Nat
  counterparty : Nat
  image : Nat
  amount : Nat
  tokenContract : Nat
  expiry : Nat
  status : Status
deriving DecidableEq

/-- The zero value every absent key of a Solidity mapping reads as. -/
def Agreement.zero : Agreement :=
  { owner := 0, counterparty := 0, image := 0, amount := 0,
    tokenContract := 0, expiry := 0, status := .locked }

/-- State of one ERC20 StandardToken contract (the external OpenZeppelin
dependency the swap invokes, out of this repository's sources): balances
and the allowed mapping. -/
structure TokenState where
  balances : Nat → Nat
  allowed : Nat → Nat → Nat

/-- ERC20 StandardToken transfer, executed with the swap contract as
message sender: requires a non-zero destination, a sufficient balance
and no SafeMath overflow at the destination, then moves the amount.
Failure is a revert (none). -/
def erc20Transfer (sender toAddr amount : Nat) (t : TokenState) : Option TokenState :=
  if toAddr ≠ 0 ∧ amount ≤ t.balances sender ∧
      t.balances toAddr + amount < two256 then
    let b1 : Nat → Nat := fun a => if a = sender then t.balances sender - amount else t.balances a
    some { t with balances := fun a => if a = toAddr then b1 toAddr + amount else b1 a }
  else
    none

/-- ERC20 StandardToken transferFrom, executed with the swap contract as
message sender (spender): additionally requires a sufficient allowance,
which it debits. -/
def erc20TransferFrom (spender fromAddr toAddr amount : Nat) (t : TokenState) :
    Option TokenState :=
  if toAddr ≠ 0 ∧ amount ≤ t.balances fromAddr ∧ amount ≤ t.allowed fromAddr spender ∧
      t.balances toAddr + amount < two256 then
    let b1 : Nat → Nat := fun a => if a = fromAddr then t.balances fromAddr - amount else t.balances a
    some { balances := fun a => if a = toAddr then b1 toAddr + amount else b1 a,
           allowed := fun o sp =>
             if o = fromAddr ∧ sp = spender then t.allowed fromAddr spender - amount
             else t.allowed o sp }
  else
    none

/-- Full Ethereum state: the swap contract's agreements mapping (total,
with the zero struct as default) and each token contract's ERC20 state,
keyed by token contract address. -/
structure EthState where
  agreements : Nat → Agreement
  tokens : Nat → TokenState

/-- Write one agreement into the agreements mapping. -/
def putAgreement (agreementID : Nat) (a : Agreement) (s : EthState) : EthState :=
  { s with agreements := fun k => if k = agreementID then a else s.agreements k }

/-- Replace one token contract's ERC20 state. -/
def putToken (contract : Nat) (t : TokenState) (s : EthState) : EthState :=
  { s with tokens := fun k => if k = contract then t else s.tokens k }

/-- Reverts of the Solidity functions: a require with its message, or a
failed assert / propagated revert from the token call. -/
inductive Revert where
  | require (msg : String)
  | assertFailed
deriving DecidableEq

/-- Events of the HTLC interface. -/
inductive Event where
  | locked (agreementID owner counterparty image amount expiry : Nat)
  | unlocked (agreementID : Nat)
  | claimed (agreementID : Nat) (secret : List Nat)
deriving DecidableEq

/-- Outcome of one external call: on success the new state plus emitted
events, on revert the error; the transaction then leaves no trace. -/
def Outcome := Except Revert (EthState × List Event)

/-- State committed by the enclosing transaction: the new state on
success, the unchanged pre-state when the call reverted. -/
def commit (r : Outcome) (s : EthState) : EthState :=
  match r with
  | .ok (s1, _) => s1
  | .error _ => s

/-- True when the call completed without reverting. -/
def Outcome.isOk (r : Outcome) : Bool :=
  match r with
  | .ok _ => true
  | .error _ => false

/-- The revert reason of a failed call, none on success. -/
def Outcome.revertOf (r : Outcome) : Option Revert :=
  match r with
  | .ok _ => none
  | .error e => some e

/-- The events emitted by a successful call, none on revert. -/
def Outcome.eventsOf (r : Outcome) : Option (List Event) :=
  match r with
  | .ok (_, evs) => some evs
  | .error _ => none

/-- Sequence two calls in separate transactions: run the second only
when the first committed. -/
def ethThen (r : Outcome) (f : EthState → Outcome) : Outcome :=
  match r with
  | .ok (s, _) => f s
  | .error e => .error e

/-- AtomicSwap.lock.  sha2pack abstracts
sha256(abi.encodePacked(msg.sender, counterparty, block.timestamp,
image)); selfAddr is address(this); now is block.timestamp.  The struct
write precedes the transferFrom, whose revert undoes it. -/
def ethLock (sha2pack : Nat → Nat → Nat → Nat → Nat) (selfAddr sender : Nat)
    (counterparty image amount tokenContract lockTime now : Nat)
    (s : EthState) : Outcome :=
  if counterparty = 0 then .error (.require "Counterparty address is not valid")
  else if tokenContract = 0 then .error (.require "Token contract address is not valid")
  else if ¬ lockTime > 0 then .error (.require "Lock time must be greater than 0")
  else if ¬ amount > 0 then .error (.require "Amount must be greater than 0")
  else
    let agreementID := sha2pack sender counterparty now image
    let expiry := u256 (now + lockTime)
    if (s.agreements agreementID).counterparty ≠ 0 then .error (.require "")
    else
      let s1 := putAgreement agreementID
        { owner := sender, counterparty := counterparty, image := image,
          amount := amount, tokenContract := tokenContract, expiry := expiry,
          status := .locked } s
      match erc20TransferFrom selfAddr sender selfAddr amount (s1.tokens tokenContract) with
      | none => .error .assertFailed
      | some ts =>
        .ok (putToken tokenContract ts s1,
             [.locked agreementID sender counterparty image amount expiry])

/-- AtomicSwap.unlock.  The agreementExists and agreementLocked modifier
checks run first; then the strict expiry guard, the owner guard, the
token transfer from the contract's own address, the status write and the
event. -/
def ethUnlock (selfAddr sender agreementID now : Nat) (s : EthState) : Outcome :=
  if (s.agreements agreementID).counterparty = 0 then
    .error (.require "Agreement does not exist")
  else if (s.agreements agreementID).status ≠ .locked then
    .error (.require "Agreement must have status Locked")
  else if ¬ now > (s.agreements agreementID).expiry then
    .error (.require "Agreement has not expired")
  else if sender ≠ (s.agreements agreementID).owner then
    .error (.require "Agreement can only be unlocked by owner")
  else
    let a := s.agreements agreementID
    match erc20Transfer selfAddr sender a.amount (s.tokens a.tokenContract) with
    | none => .error .assertFailed
    | some ts =>
      .ok (putAgreement agreementID { a with status := .unlocked }
             (putToken a.tokenContract ts s),
           [.unlocked agreementID])

/-- AtomicSwap.claim.  sha2bytes abstracts
sha256(abi.encodePacked(secret)) on the byte-string secret.  Modifier
checks, then the strict expiry guard, the counterparty guard, the secret
guard, the transfer, the status write and the event carrying the secret. -/
def ethClaim (sha2bytes : List Nat → Nat) (selfAddr sender agreementID : Nat)
    (secret : List Nat) (now : Nat) (s : EthState) : Outcome :=
  if (s.agreements agreementID).counterparty = 0 then
    .error (.require "Agreement does not exist")
  else if (s.agreements agreementID).status ≠ .locked then
    .error (.require "Agreement must have status Locked")
  else if ¬ now < (s.agreements agreementID).expiry then
    .error (.require "Agreement has expired")
  else if sender ≠ (s.agreements agreementID).counterparty then
    .error (.require "Agreement can only be claimed by owner")
  else if sha2bytes secret ≠ (s.agreements agreementID).image then
    .error (.require "Secret does not match")
  else
    let a := s.agreements agreementID
    match erc20Transfer selfAddr sender a.amount (s.tokens a.tokenContract) with
    | none => .error .assertFailed
    | some ts =>
      .ok (putAgreement agreementID { a with status := .claimed }
             (putToken a.tokenContract ts s),
           [.claimed agreementID secret])

/-- Reachable states of the AtomicSwap contract, together with the set
of agreement IDs under which lock ever wrote an agreement.  From the
freshly constructed contract (all-zero agreements mapping, arbitrary
token states), any sequence of successful lock, unlock and claim calls
may run, with arbitrary callers, arguments, block timestamps and hash
functions; reverting calls leave the state unchanged and need no step. -/
inductive Reach (selfAddr : Nat) : EthState → (Nat → Prop) → Prop where
  | init (t : Nat → TokenState) :
      Reach selfAddr { agreements := fun _ => Agreement.zero, tokens := t } (fun _ => False)
  | lock (s : EthState) (made : Nat → Prop)
      (sha2pack : Nat → Nat → Nat → Nat → Nat)
      (sender counterparty image amount tokenContract lockTime now : Nat)
      (s1 : EthState) (evs : List Event)
      (h : Reach selfAddr s made)
      (hc : ethLock sha2pack selfAddr sender counterparty image amount
              tokenContract lockTime now s = .ok (s1, evs)) :
      Reach selfAddr s1 (fun id => made id ∨ id = sha2pack sender counterparty now image)
  | unlock (s : EthState) (made : Nat → Prop) (sender agreementID now : Nat)
      (s1 : EthState) (evs : List Event)
      (h : Reach selfAddr s made)
      (hc : ethUnlock selfAddr sender agreementID now s = .ok (s1, evs)) :
      Reach selfAddr s1 made
  | claim (s : EthState) (made : Nat → Prop) (sha2bytes : List Nat → Nat)
      (sender agreementID : Nat) (secret : List Nat) (now : Nat)
      (s1 : EthState) (evs : List Event)
      (h : Reach selfAddr s made)
      (hc : ethClaim sha2bytes selfAddr sender agreementID secret now s = .ok (s1, evs)) :
      Reach selfAddr s1 made

end Eth

/-! Concrete stand-ins for the hash primitives and small concrete states,
used to instantiate universally quantified theorems.  The swap models
are parametric in the hash function, which abstracts crypto/sha256 and
the sha256 builtin. -/

namespace Fabric

/-- Hash stand-in that maps every secret to itself. -/
def idImage : String → String := fun s => s

/-- Hash stand-in that maps every secret to the image stored in the
demo agreement. -/
def constImage : String → String := fun _ => "s"

/-- A concrete token namespace: address a holds 10 available with 5
approved for b; address b holds 10 available. -/
def demoTok : TokenState :=
  ⟨fun a =>
    if a = "a" then ⟨fun sp => if sp = "b" then 5 else if sp = "a" then 10 else 0, 10⟩
    else if a = "b" then ⟨fun _ => 0, 10⟩
    else Balance.zero⟩

/-- A concrete agreement: owner a, counterparty b, image s (the idImage
of secret s), amount 5 on token contract T, expiry 100. -/
def demoAgreement : Agreement :=
  { owner := "a", counterparty := "b", image := "s", amount := 5,
    tokenContract := "T", expiry := 100 }

/-- A concrete swap state holding demoAgreement under ID X, with token
contract T in the demoTok state. -/
def demoSwap : SwapState :=
  { agreements := fun k => if k = "X" then some demoAgreement else none,
    tokens := fun c => if c = "T" then demoTok else ⟨fun _ => Balance.zero⟩ }

/-- The swap state with no agreements and empty token namespaces. -/
def emptySwap : SwapState :=
  { agreements := fun _ => none,
    tokens := fun _ => ⟨fun _ => Balance.zero⟩ }

/-- Sequence two swap invocations: run the second only when the first
committed normally. -/
def goAndThen (r : GoRes SwapErr SwapState) (f : SwapState → GoRes SwapErr SwapState) :
    GoRes SwapErr SwapState :=
  match r with
  | .ok s => f s
  | .err e => .err e
  | .panicked m => .panicked m

/-- The Claimed event set by a handler run, when it succeeded. -/
def goEvent (r : GoRes SwapErr (ClaimedEvent × SwapState)) : Option ClaimedEvent :=
  match r with
  | .ok (e, _) => some e
  | _ => none

end Fabric

namespace Eth

/-- Hash stand-in returning agreement ID 41 for every packed input. -/
def sha41 : Nat → Nat → Nat → Nat → Nat := fun _ _ _ _ => 41

/-- Hash stand-in mapping every byte-string secret to image 9. -/
def shaConst9 : List Nat → Nat := fun _ => 9

/-- A concrete ERC20 state: the swap contract (address 7) holds 5
tokens, address 1 holds 10 and has approved 10 to the swap contract. -/
def demoEthTok : TokenState :=
  { balances := fun a => if a = 7 then 5 else if a = 1 then 10 else 0,
    allowed := fun o sp => if o = 1 ∧ sp = 7 then 10 else 0 }

/-- A concrete agreement: owner 1, counterparty 2, image 9, amount 5 on
token contract 3, expiry 100, status Locked. -/
def demoEthAgreement : Agreement :=
  { owner := 1, counterparty := 2, image := 9, amount := 5,
    tokenContract := 3, expiry := 100, status := .locked }

/-- A concrete Ethereum state holding demoEthAgreement under ID 42,
with token contract 3 in the demoEthTok state. -/
def demoEth : EthState :=
  { agreements := fun k => if k = 42 then demoEthAgreement else Agreement.zero,
    tokens := fun c => if c = 3 then demoEthTok else ⟨fun _ => 0, fun _ _ => 0⟩ }

end Eth

/-! Theorems.  Each claim's theorem carries the claim id in its doc
comment; shared helper lemmas come first. -/

/-- Helper: a Fabric swap result that is an error or a panic commits
nothing, by the host ledger's transaction atomicity. -/
theorem fabricCommit_of_not_ok {α : Type} (get : α → Fabric.SwapState)
    (r : GoRes Fabric.SwapErr α) (s : Fabric.SwapState)
    (h : r.isOk = false) : Fabric.fabricCommit get r s = s := by
  cases r with
  | ok a => simp [GoRes.isOk] at h
  | err e => rfl
  | panicked m => rfl

/-- Helper: an Ethereum call that reverted commits nothing. -/
theorem ethCommit_of_not_ok (r : Eth.Outcome) (s : Eth.EthState)
    (h : r.isOk = false) : Eth.commit r s = s := by
  cases r with
  | ok a => simp [Eth.Outcome.isOk] at h
  | error e => rfl

/-- Helper: a Fabric token self-transfer with a non-zero amount within
the sender's available balance succeeds. -/
theorem tokenTransfer_self_ok (sender : String) (amount : Nat)
    (t : Fabric.TokenState) (hamt : amount ≠ 0)
    (hbal : amount ≤ (t.balances sender).available) :
    ∃ t1, Fabric.tokenTransfer sender sender amount t = .ok t1 := by
  simp only [Fabric.tokenTransfer, if_neg hamt, if_neg (Nat.not_lt.mpr hbal)]
  exact ⟨_, rfl⟩

/-- Helper: an ERC20 transfer to a non-zero address with a sufficient
sender balance and no receiver overflow succeeds. -/
theorem erc20Transfer_ok (sender toAddr amount : Nat) (t : Eth.TokenState)
    (hto : toAddr ≠ 0) (hbal : amount ≤ t.balances sender)
    (hov : t.balances toAddr + amount < Eth.two256) :
    ∃ t1, Eth.erc20Transfer sender toAddr amount t = some t1 := by
  simp only [Eth.erc20Transfer, if_pos (show toAddr ≠ 0 ∧ amount ≤ t.balances sender ∧
    t.balances toAddr + amount < Eth.two256 from ⟨hto, hbal, hov⟩)]
  exact ⟨_, rfl⟩

/-- C1: the Fabric implementation keeps no status on an agreement, so a
second Claim on an already claimed agreement X succeeds again instead of
failing with AlreadySettledError; the Ethereum implementation, whose
agreementLocked modifier guards unlock and claim, does reject the second
claim.  Evaluated at the concrete demo agreement X (owner a,
counterparty b, expiry 100, amount 5) claimed twice by b at time 50. -/
theorem double_settlement_check :
    (Fabric.goAndThen
       (Fabric.fabricClaim Fabric.idImage "b" 50 "X" "s" Fabric.demoSwap)
       (fun s1 => Fabric.fabricClaim Fabric.idImage "b" 50 "X" "s" s1)).isOk = true ∧
    (Eth.ethThen
       (Eth.ethClaim Eth.shaConst9 7 2 42 [3] 50 Eth.demoEth)
       (fun s1 => Eth.ethClaim Eth.shaConst9 7 2 42 [3] 50 s1)).revertOf =
      some (.require "Agreement must have status Locked") := by
  constructor
  · rfl
  · rfl

/-- C4: on an agreement ID absent from the store, the Fabric Unlock and
Claim do not return a NotFoundError: getAgreement returns a nil pointer
with a nil error, and the immediately following field access panics with
a nil pointer dereference.  Evaluated on the empty store at ID X. -/
theorem missing_agreement_panics :
    Fabric.fabricUnlock "a" 0 "X" Fabric.emptySwap =
      .panicked Fabric.nilDereference ∧
    Fabric.fabricClaim Fabric.idImage "a" 0 "X" "s" Fabric.emptySwap =
      .panicked Fabric.nilDereference := by
  constructor
  · rfl
  · rfl

/-- C7: the expiry decisions of the Fabric Unlock and Claim are computed
from time.Now().Unix(), the local wall clock of the executing peer, not
from the transaction timestamp: with all transaction inputs identical
(stored agreement X with expiry 100, caller, arguments), the outcome
flips as the wall clock moves across the expiry. -/
theorem fabric_wall_clock_dependence :
    (Fabric.fabricUnlock "a" 99 "X" Fabric.demoSwap).isOk = false ∧
    (Fabric.fabricUnlock "a" 101 "X" Fabric.demoSwap).isOk = true ∧
    (Fabric.fabricClaim Fabric.idImage "b" 101 "X" "s" Fabric.demoSwap).isOk = false ∧
    (Fabric.fabricClaim Fabric.idImage "b" 99 "X" "s" Fabric.demoSwap).isOk = true := by
  refine ⟨rfl, ?_, rfl, ?_⟩ <;> rfl

/-- Helper: exact shape of the Fabric Unlock on an existing agreement
whose amount is transferable: the owner guard, then the wall-clock
expiry guard with strict greater-than, then success. -/
theorem fabricUnlock_spec (invoker : String) (now : Int) (aid : String)
    (s : Fabric.SwapState) (a : Fabric.Agreement)
    (ha : s.agreements aid = some a) (hamt : a.amount ≠ 0)
    (hbal : a.amount ≤ ((s.tokens a.tokenContract).balances a.owner).available) :
    (invoker ≠ a.owner →
      Fabric.fabricUnlock invoker now aid s = .err (.notOwner a.owner)) ∧
    (invoker = a.owner → a.expiry > now →
      Fabric.fabricUnlock invoker now aid s = .err (.notYetExpired a.expiry)) ∧
    (invoker = a.owner → a.expiry ≤ now →
      ∃ s1, Fabric.fabricUnlock invoker now aid s = .ok s1) := by
  refine ⟨fun h1 => ?_, fun h1 h2 => ?_, fun h1 h2 => ?_⟩
  · simp only [Fabric.fabricUnlock, ha, if_pos h1]
  · subst h1
    simp only [Fabric.fabricUnlock, ha]
    rw [if_neg (by simp), if_pos h2]
  · subst h1
    obtain ⟨t1, ht⟩ :=
      tokenTransfer_self_ok a.owner a.amount (s.tokens a.tokenContract) hamt hbal
    simp only [Fabric.fabricUnlock, ha]
    rw [if_neg (by simp), if_neg (Int.not_lt.mpr h2), ht]
    exact ⟨_, rfl⟩

/-- Helper: exact shape of the Ethereum unlock on an existing Locked
agreement whose payout transfer can succeed: the strict expiry guard,
then the owner guard, then success. -/
theorem ethUnlock_spec (selfAddr sender agreementID now : Nat) (s : Eth.EthState)
    (he : (s.agreements agreementID).counterparty ≠ 0)
    (hel : (s.agreements agreementID).status = .locked)
    (hsz : sender ≠ 0)
    (heb : (s.agreements agreementID).amount ≤
      (s.tokens (s.agreements agreementID).tokenContract).balances selfAddr)
    (hov : (s.tokens (s.agreements agreementID).tokenContract).balances sender +
      (s.agreements agreementID).amount < Eth.two256) :
    (¬ now > (s.agreements agreementID).expiry →
      Eth.ethUnlock selfAddr sender agreementID now s =
        .error (.require "Agreement has not expired")) ∧
    (now > (s.agreements agreementID).expiry →
      sender ≠ (s.agreements agreementID).owner →
      Eth.ethUnlock selfAddr sender agreementID now s =
        .error (.require "Agreement can only be unlocked by owner")) ∧
    (now > (s.agreements agreementID).expiry →
      sender = (s.agreements agreementID).owner →
      ∃ s1 evs, Eth.ethUnlock selfAddr sender agreementID now s = .ok (s1, evs)) := by
  refine ⟨fun h1 => ?_, fun h1 h2 => ?_, fun h1 h2 => ?_⟩
  · simp only [Eth.ethUnlock]
    rw [if_neg he, if_neg (by simp [hel]), if_pos h1]
  · simp only [Eth.ethUnlock]
    rw [if_neg he, if_neg (by simp [hel]), if_neg (by simpa using h1), if_pos h2]
  · obtain ⟨t1, ht⟩ := erc20Transfer_ok selfAddr sender
      (s.agreements agreementID).amount
      (s.tokens (s.agreements agreementID).tokenContract) hsz heb hov
    simp only [Eth.ethUnlock]
    rw [if_neg he, if_neg (by simp [hel]), if_neg (by simpa using h1),
      if_neg (by simpa using h2), ht]
    exact ⟨_, _, rfl⟩

/-- Counterexample for C3: at wall-clock time equal to the expiry (100),
which is not strictly greater than it, the Fabric Unlock by the owner
succeeds instead of failing with the TimingError. -/
theorem fabric_unlock_at_expiry_succeeds :
    ¬ ((100 : Int) > 100) ∧
    Fabric.demoAgreement.expiry = 100 ∧
    (Fabric.fabricUnlock "a" 100 "X" Fabric.demoSwap).isOk = true :=
  ⟨by decide, rfl, rfl⟩

/-- C3 amended: on an existing agreement whose payout transfer is viable,
the Ethereum unlock succeeds iff block.timestamp is strictly greater than
the expiry and the sender is the owner, failing otherwise with the
corresponding revert; the Fabric Unlock succeeds iff the local wall clock
is greater than or equal to the expiry and the invoker is the owner,
failing otherwise with the corresponding error; every failing call
commits no state change. -/
theorem unlock_guard_characterization
    (invoker : String) (now : Int) (aid : String)
    (s : Fabric.SwapState) (a : Fabric.Agreement)
    (ha : s.agreements aid = some a)
    (hamt : a.amount ≠ 0)
    (hbal : a.amount ≤ ((s.tokens a.tokenContract).balances a.owner).available)
    (selfAddr sender agreementID enow : Nat) (es : Eth.EthState)
    (he : (es.agreements agreementID).counterparty ≠ 0)
    (hel : (es.agreements agreementID).status = .locked)
    (hsz : sender ≠ 0)
    (heb : (es.agreements agreementID).amount ≤
      (es.tokens (es.agreements agreementID).tokenContract).balances selfAddr)
    (hov : (es.tokens (es.agreements agreementID).tokenContract).balances sender +
      (es.agreements agreementID).amount < Eth.two256) :
    ((Fabric.fabricUnlock invoker now aid s).isOk = true ↔
      (invoker = a.owner ∧ a.expiry ≤ now)) ∧
    (invoker ≠ a.owner →
      Fabric.fabricUnlock invoker now aid s = .err (.notOwner a.owner)) ∧
    (invoker = a.owner → now < a.expiry →
      Fabric.fabricUnlock invoker now aid s = .err (.notYetExpired a.expiry)) ∧
    ((Fabric.fabricUnlock invoker now aid s).isOk = false →
      Fabric.fabricCommit id (Fabric.fabricUnlock invoker now aid s) s = s) ∧
    ((Eth.ethUnlock selfAddr sender agreementID enow es).isOk = true ↔
      (enow > (es.agreements agreementID).expiry ∧
        sender = (es.agreements agreementID).owner)) ∧
    (¬ enow > (es.agreements agreementID).expiry →
      Eth.ethUnlock selfAddr sender agreementID enow es =
        .error (.require "Agreement has not expired")) ∧
    (enow > (es.agreements agreementID).expiry →
      sender ≠ (es.agreements agreementID).owner →
      Eth.ethUnlock selfAddr sender agreementID enow es =
        .error (.require "Agreement can only be unlocked by owner")) ∧
    ((Eth.ethUnlock selfAddr sender agreementID enow es).isOk = false →
      Eth.commit (Eth.ethUnlock selfAddr sender agreementID enow es) es = es) := by
  obtain ⟨hf1, hf2, hf3⟩ := fabricUnlock_spec invoker now aid s a ha hamt hbal
  obtain ⟨he1, he2, he3⟩ := ethUnlock_spec selfAddr sender agreementID enow es he hel hsz heb hov
  refine ⟨?_, hf1, ?_, ?_, ?_, he1, he2, ?_⟩
  · constructor
    · intro hok
      by_cases h1 : invoker = a.owner
      · by_cases h2 : a.expiry ≤ now
        · exact ⟨h1, h2⟩
        · rw [hf2 h1 (Int.lt_of_not_ge h2)] at hok
          simp [GoRes.isOk] at hok
      · rw [hf1 h1] at hok
        simp [GoRes.isOk] at hok
    · rintro ⟨h1, h2⟩
      obtain ⟨s1, hs1⟩ := hf3 h1 h2
      rw [hs1]
      rfl
  · intro h1 h2
    exact hf2 h1 h2
  · intro h
    exact fabricCommit_of_not_ok id (Fabric.fabricUnlock invoker now aid s) s h
  · constructor
    · intro hok
      by_cases h1 : enow > (es.agreements agreementID).expiry
      · by_cases h2 : sender = (es.agreements agreementID).owner
        · exact ⟨h1, h2⟩
        · rw [he2 h1 h2] at hok
          simp [Eth.Outcome.isOk] at hok
      · rw [he1 h1] at hok
        simp [Eth.Outcome.isOk] at hok
    · rintro ⟨h1, h2⟩
      obtain ⟨s1, evs, hs1⟩ := he3 h1 h2
      rw [hs1]
      rfl
  · intro h
    exact ethCommit_of_not_ok (Eth.ethUnlock selfAddr sender agreementID enow es) es h

/-- Witness for C3: on the demo states, at time 101 past the expiry 100,
the Fabric Unlock by owner a and the Ethereum unlock by owner 1 both
succeed. -/
theorem unlock_guard_characterization_witness :
    (Fabric.fabricUnlock "a" 101 "X" Fabric.demoSwap).isOk = true ∧
    (Eth.ethUnlock 7 1 42 101 Eth.demoEth).isOk = true := by
  have h := unlock_guard_characterization "a" 101 "X" Fabric.demoSwap
    Fabric.demoAgreement (by decide) (by decide) (by decide)
    7 1 42 101 Eth.demoEth (by decide) (by decide) (by decide) (by decide) (by decide)
  exact ⟨h.1.mpr ⟨rfl, by decide⟩, h.2.2.2.2.1.mpr ⟨by decide, by decide⟩⟩

/-- Helper: exact shape of the Fabric Claim on an existing agreement
whose amount is transferable: the counterparty guard, then the
wall-clock expiry guard failing only strictly after expiry, then the
secret guard, then success. -/
theorem fabricClaim_spec (imageOf : String → String) (invoker : String)
    (now : Int) (aid secret : String)
    (s : Fabric.SwapState) (a : Fabric.Agreement)
    (ha : s.agreements aid = some a) (hamt : a.amount ≠ 0)
    (hbal : a.amount ≤ ((s.tokens a.tokenContract).balances a.counterparty).available) :
    (invoker ≠ a.counterparty →
      Fabric.fabricClaim imageOf invoker now aid secret s =
        .err (.notCounterparty a.counterparty)) ∧
    (invoker = a.counterparty → a.expiry < now →
      Fabric.fabricClaim imageOf invoker now aid secret s = .err (.expired a.expiry)) ∧
    (invoker = a.counterparty → now ≤ a.expiry → imageOf secret ≠ a.image →
      Fabric.fabricClaim imageOf invoker now aid secret s =
        .err (.secretMismatch secret a.image)) ∧
    (invoker = a.counterparty → now ≤ a.expiry → imageOf secret = a.image →
      ∃ s1, Fabric.fabricClaim imageOf invoker now aid secret s = .ok s1) := by
  refine ⟨fun h1 => ?_, fun h1 h2 => ?_, fun h1 h2 h3 => ?_, fun h1 h2 h3 => ?_⟩
  · simp only [Fabric.fabricClaim, ha, if_pos h1]
  · subst h1
    simp only [Fabric.fabricClaim, ha]
    rw [if_neg (by simp), if_pos h2]
  · subst h1
    simp only [Fabric.fabricClaim, ha]
    rw [if_neg (by simp), if_neg (Int.not_lt.mpr h2), if_pos h3]
  · subst h1
    obtain ⟨t1, ht⟩ :=
      tokenTransfer_self_ok a.counterparty a.amount (s.tokens a.tokenContract) hamt hbal
    simp only [Fabric.fabricClaim, ha]
    rw [if_neg (by simp), if_neg (Int.not_lt.mpr h2), if_neg (by simp [h3]), ht]
    exact ⟨_, rfl⟩

/-- Helper: exact shape of the Ethereum claim on an existing Locked
agreement whose payout transfer can succeed: the strict expiry guard,
then the counterparty guard, then the secret guard, then success. -/
theorem ethClaim_spec (sha2bytes : List Nat → Nat)
    (selfAddr sender agreementID : Nat) (secret : List Nat) (now : Nat)
    (s : Eth.EthState)
    (he : (s.agreements agreementID).counterparty ≠ 0)
    (hel : (s.agreements agreementID).status = .locked)
    (hsz : sender ≠ 0)
    (heb : (s.agreements agreementID).amount ≤
      (s.tokens (s.agreements agreementID).tokenContract).balances selfAddr)
    (hov : (s.tokens (s.agreements agreementID).tokenContract).balances sender +
      (s.agreements agreementID).amount < Eth.two256) :
    (¬ now < (s.agreements agreementID).expiry →
      Eth.ethClaim sha2bytes selfAddr sender agreementID secret now s =
        .error (.require "Agreement has expired")) ∧
    (now < (s.agreements agreementID).expiry →
      sender ≠ (s.agreements agreementID).counterparty →
      Eth.ethClaim sha2bytes selfAddr sender agreementID secret now s =
        .error (.require "Agreement can only be claimed by owner")) ∧
    (now < (s.agreements agreementID).expiry →
      sender = (s.agreements agreementID).counterparty →
      sha2bytes secret ≠ (s.agreements agreementID).image →
      Eth.ethClaim sha2bytes selfAddr sender agreementID secret now s =
        .error (.require "Secret does not match")) ∧
    (now < (s.agreements agreementID).expiry →
      sender = (s.agreements agreementID).counterparty →
      sha2bytes secret = (s.agreements agreementID).image →
      ∃ s1 evs, Eth.ethClaim sha2bytes selfAddr sender agreementID secret now s =
        .ok (s1, evs)) := by
  refine ⟨fun h1 => ?_, fun h1 h2 => ?_, fun h1 h2 h3 => ?_, fun h1 h2 h3 => ?_⟩
  · simp only [Eth.ethClaim]
    rw [if_neg he, if_neg (by simp [hel]), if_pos h1]
  · simp only [Eth.ethClaim]
    rw [if_neg he, if_neg (by simp [hel]), if_neg (by simpa using h1), if_pos h2]
  · simp only [Eth.ethClaim]
    rw [if_neg he, if_neg (by simp [hel]), if_neg (by simpa using h1),
      if_neg (by simpa using h2), if_pos h3]
  · obtain ⟨t1, ht⟩ := erc20Transfer_ok selfAddr sender
      (s.agreements agreementID).amount
      (s.tokens (s.agreements agreementID).tokenContract) hsz heb hov
    simp only [Eth.ethClaim]
    rw [if_neg he, if_neg (by simp [hel]), if_neg (by simpa using h1),
      if_neg (by simpa using h2), if_neg (by simp [h3]), ht]
    exact ⟨_, _, rfl⟩

/-- Counterexample for C2: at wall-clock time equal to the expiry (100),
which is not strictly before it, the Fabric Claim by the counterparty
with the matching secret succeeds instead of failing with the
TimingError. -/
theorem fabric_claim_at_expiry_succeeds :
    ¬ ((100 : Int) < 100) ∧
    Fabric.demoAgreement.expiry = 100 ∧
    (Fabric.fabricClaim Fabric.idImage "b" 100 "X" "s" Fabric.demoSwap).isOk = true :=
  ⟨by decide, rfl, rfl⟩

/-- C2 amended: on an existing agreement whose payout transfer is viable,
the Ethereum claim succeeds iff block.timestamp is strictly before the
expiry, the sender is the counterparty and the sha256 of the secret
equals the stored image, failing otherwise with the corresponding
revert; the Fabric Claim succeeds iff the local wall clock is less than
or equal to the expiry, the invoker is the counterparty and the image of
the secret matches, failing otherwise with the corresponding error;
every failing call commits no state change. -/
theorem claim_guard_characterization
    (imageOf : String → String) (invoker : String) (now : Int) (aid secret : String)
    (s : Fabric.SwapState) (a : Fabric.Agreement)
    (ha : s.agreements aid = some a)
    (hamt : a.amount ≠ 0)
    (hbal : a.amount ≤ ((s.tokens a.tokenContract).balances a.counterparty).available)
    (sha2bytes : List Nat → Nat) (selfAddr sender agreementID : Nat)
    (esecret : List Nat) (enow : Nat) (es : Eth.EthState)
    (he : (es.agreements agreementID).counterparty ≠ 0)
    (hel : (es.agreements agreementID).status = .locked)
    (hsz : sender ≠ 0)
    (heb : (es.agreements agreementID).amount ≤
      (es.tokens (es.agreements agreementID).tokenContract).balances selfAddr)
    (hov : (es.tokens (es.agreements agreementID).tokenContract).balances sender +
      (es.agreements agreementID).amount < Eth.two256) :
    ((Fabric.fabricClaim imageOf invoker now aid secret s).isOk = true ↔
      (invoker = a.counterparty ∧ now ≤ a.expiry ∧ imageOf secret = a.image)) ∧
    (invoker ≠ a.counterparty →
      Fabric.fabricClaim imageOf invoker now aid secret s =
        .err (.notCounterparty a.counterparty)) ∧
    (invoker = a.counterparty → a.expiry < now →
      Fabric.fabricClaim imageOf invoker now aid secret s = .err (.expired a.expiry)) ∧
    (invoker = a.counterparty → now ≤ a.expiry → imageOf secret ≠ a.image →
      Fabric.fabricClaim imageOf invoker now aid secret s =
        .err (.secretMismatch secret a.image)) ∧
    ((Fabric.fabricClaim imageOf invoker now aid secret s).isOk = false →
      Fabric.fabricCommit id (Fabric.fabricClaim imageOf invoker now aid secret s) s = s) ∧
    ((Eth.ethClaim sha2bytes selfAddr sender agreementID esecret enow es).isOk = true ↔
      (enow < (es.agreements agreementID).expiry ∧
        sender = (es.agreements agreementID).counterparty ∧
        sha2bytes esecret = (es.agreements agreementID).image)) ∧
    ((Eth.ethClaim sha2bytes selfAddr sender agreementID esecret enow es).isOk = false →
      Eth.commit (Eth.ethClaim sha2bytes selfAddr sender agreementID esecret enow es) es = es) := by
  obtain ⟨hf1, hf2, hf3, hf4⟩ :=
    fabricClaim_spec imageOf invoker now aid secret s a ha hamt hbal
  obtain ⟨he1, he2, he3, he4⟩ :=
    ethClaim_spec sha2bytes selfAddr sender agreementID esecret enow es he hel hsz heb hov
  refine ⟨?_, hf1, hf2, hf3, ?_, ?_, ?_⟩
  · constructor
    · intro hok
      by_cases h1 : invoker = a.counterparty
      · by_cases h2 : now ≤ a.expiry
        · by_cases h3 : imageOf secret = a.image
          · exact ⟨h1, h2, h3⟩
          · rw [hf3 h1 h2 h3] at hok
            simp [GoRes.isOk] at hok
        · rw [hf2 h1 (Int.lt_of_not_ge h2)] at hok
          simp [GoRes.isOk] at hok
      · rw [hf1 h1] at hok
        simp [GoRes.isOk] at hok
    · rintro ⟨h1, h2, h3⟩
      obtain ⟨s1, hs1⟩ := hf4 h1 h2 h3
      rw [hs1]
      rfl
  · intro h
    exact fabricCommit_of_not_ok id _ s h
  · constructor
    · intro hok
      by_cases h1 : enow < (es.agreements agreementID).expiry
      · by_cases h2 : sender = (es.agreements agreementID).counterparty
        · by_cases h3 : sha2bytes esecret = (es.agreements agreementID).image
          · exact ⟨h1, h2, h3⟩
          · rw [he3 h1 h2 h3] at hok
            simp [Eth.Outcome.isOk] at hok
        · rw [he2 h1 h2] at hok
          simp [Eth.Outcome.isOk] at hok
      · rw [he1 h1] at hok
        simp [Eth.Outcome.isOk] at hok
    · rintro ⟨h1, h2, h3⟩
      obtain ⟨s1, evs, hs1⟩ := he4 h1 h2 h3
      rw [hs1]
      rfl
  · intro h
    exact ethCommit_of_not_ok _ es h

/-- Witness for C2: on the demo states, at time 50 before the expiry
100, the Fabric Claim by counterparty b with the matching secret and the
Ethereum claim by counterparty 2 with a secret hashing to the stored
image both succeed. -/
theorem claim_guard_characterization_witness :
    (Fabric.fabricClaim Fabric.idImage "b" 50 "X" "s" Fabric.demoSwap).isOk = true ∧
    (Eth.ethClaim Eth.shaConst9 7 2 42 [3] 50 Eth.demoEth).isOk = true := by
  have h := claim_guard_characterization Fabric.idImage "b" 50 "X" "s"
    Fabric.demoSwap Fabric.demoAgreement (by decide) (by decide) (by decide)
    Eth.shaConst9 7 2 42 [3] 50 Eth.demoEth
    (by decide) (by decide) (by decide) (by decide) (by decide)
  exact ⟨h.1.mpr ⟨rfl, by decide, rfl⟩, h.2.2.2.2.2.1.mpr ⟨by decide, by decide, by decide⟩⟩

/-- C5: when the TransferFrom that locks the funds fails, the whole Lock
call fails and the committed store is unchanged, so no Agreement is
persisted: the Fabric handler turns the error into an invalidated
transaction whose write set is discarded, and the Ethereum assert
reverts the preceding struct write. -/
theorem lock_transfer_failure_is_atomic
    (txID invoker ccAddr cp image : String) (amount : Nat) (tc : String)
    (lockTime ts : Int) (s : Fabric.SwapState)
    (hf : (Fabric.tokenTransferFrom invoker invoker ccAddr amount (s.tokens tc)).isOk = false) :
    ((Fabric.fabricLock txID invoker ccAddr cp image amount tc lockTime ts s).isOk = false ∧
     Fabric.fabricCommit Prod.snd
       (Fabric.fabricLock txID invoker ccAddr cp image amount tc lockTime ts s) s = s) ∧
    (∀ (sha2pack : Nat → Nat → Nat → Nat → Nat)
        (selfAddr sender ecp eimg eamt etc elt enow : Nat) (es : Eth.EthState),
      Eth.erc20TransferFrom selfAddr sender selfAddr eamt (es.tokens etc) = none →
      (Eth.ethLock sha2pack selfAddr sender ecp eimg eamt etc elt enow es).isOk = false ∧
      Eth.commit (Eth.ethLock sha2pack selfAddr sender ecp eimg eamt etc elt enow es) es = es) := by
  constructor
  · have hok : (Fabric.fabricLock txID invoker ccAddr cp image amount tc lockTime ts s).isOk = false := by
      simp only [Fabric.fabricLock, Fabric.putAgreement]
      cases hag : s.agreements txID with
      | some a => rfl
      | none =>
        cases htf : Fabric.tokenTransferFrom invoker invoker ccAddr amount (s.tokens tc) with
        | ok t1 => rw [htf] at hf; simp [GoRes.isOk] at hf
        | err e => rfl
        | panicked m => rfl
    exact ⟨hok, fabricCommit_of_not_ok Prod.snd _ s hok⟩
  · intro sha2pack selfAddr sender ecp eimg eamt etc elt enow es hnone
    have hok : (Eth.ethLock sha2pack selfAddr sender ecp eimg eamt etc elt enow es).isOk = false := by
      simp only [Eth.ethLock, Eth.putAgreement]
      split
      · rfl
      split
      · rfl
      split
      · rfl
      split
      · rfl
      split
      · rfl
      split
      · rfl
      next t1 ht1 =>
        rw [hnone] at ht1
        cases ht1
    exact ⟨hok, ethCommit_of_not_ok _ es hok⟩

/-- Witness for C5: with an invoker holding no approval, the Fabric Lock
under fresh ID Y fails and commits nothing; with a sender holding no
allowance, the Ethereum lock fails. -/
theorem lock_transfer_failure_is_atomic_witness :
    (Fabric.fabricLock "Y" "z" "C" "b" "H" 5 "T" 10 100 Fabric.demoSwap).isOk = false ∧
    (Eth.ethLock Eth.sha41 7 2 1 9 5 3 10 100 Eth.demoEth).isOk = false := by
  have h := lock_transfer_failure_is_atomic "Y" "z" "C" "b" "H" 5 "T" 10 100
    Fabric.demoSwap (by decide)
  exact ⟨h.1.1, (h.2 Eth.sha41 7 2 1 9 5 3 10 100 Eth.demoEth rfl).1⟩

/-- Counterexample for C6: an Ethereum lock whose counterparty equals
the caller (both address 1) - which violates the stated precondition
that the counterparty be distinct from the resolved caller - succeeds,
creates the agreement under ID 41 with counterparty 1, and moves 5
tokens into the swap contract's balance. -/
theorem eth_lock_allows_self_counterparty :
    (Eth.ethLock Eth.sha41 7 1 1 9 5 3 10 100 Eth.demoEth).isOk = true ∧
    ((Eth.commit (Eth.ethLock Eth.sha41 7 1 1 9 5 3 10 100 Eth.demoEth)
        Eth.demoEth).agreements 41).counterparty = 1 ∧
    ((Eth.commit (Eth.ethLock Eth.sha41 7 1 1 9 5 3 10 100 Eth.demoEth)
        Eth.demoEth).tokens 3).balances 7 = 10 := by
  refine ⟨rfl, rfl, rfl⟩

/-- C6 amended: the Ethereum lock rejects a zero counterparty, a zero
token contract, a zero lockTime and a zero amount with the corresponding
require revert, and a reverted transaction commits nothing; it performs
no check that the counterparty differs from the caller.  The Fabric
LockHandler performs no argument validation at all: for instance a Lock
with negative lockTime -5 succeeds and persists an agreement whose
expiry (95) already lies before the transaction timestamp (100). -/
theorem lock_validation_behavior :
    (∀ (sha : Nat → Nat → Nat → Nat → Nat) (selfAddr sender img amt tc lt now : Nat)
        (s : Eth.EthState),
      Eth.ethLock sha selfAddr sender 0 img amt tc lt now s =
        .error (.require "Counterparty address is not valid")) ∧
    (∀ (sha : Nat → Nat → Nat → Nat → Nat) (selfAddr sender img amt lt now : Nat)
        (s : Eth.EthState),
      Eth.ethLock sha selfAddr sender 1 img amt 0 lt now s =
        .error (.require "Token contract address is not valid")) ∧
    (∀ (sha : Nat → Nat → Nat → Nat → Nat) (selfAddr sender img amt now : Nat)
        (s : Eth.EthState),
      Eth.ethLock sha selfAddr sender 1 img amt 1 0 now s =
        .error (.require "Lock time must be greater than 0")) ∧
    (∀ (sha : Nat → Nat → Nat → Nat → Nat) (selfAddr sender img now : Nat)
        (s : Eth.EthState),
      Eth.ethLock sha selfAddr sender 1 img 0 1 1 now s =
        .error (.require "Amount must be greater than 0")) ∧
    (∀ (e : Eth.Revert) (s : Eth.EthState), Eth.commit (.error e) s = s) ∧
    ((Fabric.fabricLock "Y" "a" "C" "b" "H" 5 "T" (-5) 100 Fabric.demoSwap).isOk = true ∧
      (Fabric.fabricCommit Prod.snd
        (Fabric.fabricLock "Y" "a" "C" "b" "H" 5 "T" (-5) 100 Fabric.demoSwap)
        Fabric.demoSwap).agreements "Y" =
        some { owner := "a", counterparty := "b", image := "H", amount := 5,
               tokenContract := "T", expiry := 95 }) := by
  refine ⟨?_, ?_, ?_, ?_, fun e s => rfl, rfl, by decide⟩
  · intro sha selfAddr sender img amt tc lt now s
    unfold Eth.ethLock
    rw [if_pos rfl]
  · intro sha selfAddr sender img amt lt now s
    unfold Eth.ethLock
    rw [if_neg (by decide), if_pos rfl]
  · intro sha selfAddr sender img amt now s
    unfold Eth.ethLock
    rw [if_neg (by decide), if_neg (by decide), if_pos (by decide)]
  · intro sha selfAddr sender img now s
    unfold Eth.ethLock
    rw [if_neg (by decide), if_neg (by decide), if_neg (by decide), if_pos (by decide)]

/-- Counterexample for C8: under a hash for which two different secrets
p and q both authorize the claim of agreement X, the Fabric ClaimHandler
emits identical Claimed events for the two runs - the event struct has
no secret field - so a successful Claim does not publish the disclosed
secret in its event payload. -/
theorem fabric_claimed_event_secret_free :
    "p" ≠ "q" ∧
    (Fabric.fabricClaimHandler Fabric.constImage "b" 50 "X" "p" Fabric.demoSwap).isOk = true ∧
    (Fabric.fabricClaimHandler Fabric.constImage "b" 50 "X" "q" Fabric.demoSwap).isOk = true ∧
    Fabric.goEvent (Fabric.fabricClaimHandler Fabric.constImage "b" 50 "X" "p" Fabric.demoSwap) =
      some (Fabric.newClaimedEvent "X") ∧
    Fabric.goEvent (Fabric.fabricClaimHandler Fabric.constImage "b" 50 "X" "q" Fabric.demoSwap) =
      some (Fabric.newClaimedEvent "X") := by
  exact ⟨by decide, rfl, rfl, rfl, rfl⟩

/-- C8 amended: every successful Ethereum claim emits a Claimed event
carrying both the agreement ID and the disclosed secret; every
successful Fabric ClaimHandler run emits a Claimed event carrying only
the agreement ID and nothing derived from the secret. -/
theorem claimed_event_payloads :
    (∀ (sha2bytes : List Nat → Nat) (selfAddr sender agreementID : Nat)
        (secret : List Nat) (now : Nat) (s : Eth.EthState),
      (Eth.ethClaim sha2bytes selfAddr sender agreementID secret now s).isOk = true →
      (Eth.ethClaim sha2bytes selfAddr sender agreementID secret now s).eventsOf =
        some [Eth.Event.claimed agreementID secret]) ∧
    (∀ (imageOf : String → String) (invoker : String) (now : Int)
        (agreementID secret : String) (s : Fabric.SwapState),
      (Fabric.fabricClaimHandler imageOf invoker now agreementID secret s).isOk = true →
      Fabric.goEvent (Fabric.fabricClaimHandler imageOf invoker now agreementID secret s) =
        some (Fabric.newClaimedEvent agreementID)) := by
  constructor
  · intro sha2bytes selfAddr sender agreementID secret now s hok
    cases hres : Eth.ethClaim sha2bytes selfAddr sender agreementID secret now s with
    | error e =>
      rw [hres] at hok
      simp [Eth.Outcome.isOk] at hok
    | ok p =>
      obtain ⟨s1, evs⟩ := p
      have hevs : evs = [Eth.Event.claimed agreementID secret] := by
        simp only [Eth.ethClaim, Eth.putAgreement] at hres
        repeat' split at hres
        all_goals cases hres
        all_goals rfl
      rw [hevs]
      rfl
  · intro imageOf invoker now agreementID secret s hok
    unfold Fabric.fabricClaimHandler at hok ⊢
    cases hres : Fabric.fabricClaim imageOf invoker now agreementID secret s with
    | ok s1 => rfl
    | err e =>
      rw [hres] at hok
      simp [GoRes.isOk] at hok
    | panicked m =>
      rw [hres] at hok
      simp [GoRes.isOk] at hok

/-- Witness for C8 amended: on the demo states, the Ethereum claim event
carries agreement ID 42 with the secret bytes, and the Fabric event
carries only the agreement ID X. -/
theorem claimed_event_payloads_witness :
    (Eth.ethClaim Eth.shaConst9 7 2 42 [3] 50 Eth.demoEth).eventsOf =
      some [Eth.Event.claimed 42 [3]] ∧
    Fabric.goEvent (Fabric.fabricClaimHandler Fabric.constImage "b" 50 "X" "p" Fabric.demoSwap) =
      some (Fabric.newClaimedEvent "X") :=
  ⟨claimed_event_payloads.1 Eth.shaConst9 7 2 42 [3] 50 Eth.demoEth rfl,
   claimed_event_payloads.2 Fabric.constImage "b" 50 "X" "p" Fabric.demoSwap rfl⟩

/-- C9: the Fabric token's Approve succeeds while leaving the persisted
ledger state entirely unchanged - the approval is written only into an
in-memory Balance copy that is never stored - so a subsequent Allowance
read still returns the previously persisted approval amount. -/
theorem approve_leaves_state_unchanged (s : Fabric.TokenState)
    (sender spender : String) (amount : Nat) (h : amount ≠ 0) :
    Fabric.tokenApprove sender spender amount s = .ok s ∧
    Fabric.tokenAllowance sender spender s = (s.balances sender).approved spender := by
  refine ⟨?_, rfl⟩
  simp [Fabric.tokenApprove, h]

/-- Helper: a successful Ethereum lock requires a non-zero counterparty
argument and a zero counterparty sentinel at the derived ID, and updates
the counterparty field of exactly that ID. -/
theorem ethLock_ok_inversion (sha2pack : Nat → Nat → Nat → Nat → Nat)
    (selfAddr sender counterparty image amount tokenContract lockTime now : Nat)
    (s s1 : Eth.EthState) (evs : List Eth.Event)
    (hc : Eth.ethLock sha2pack selfAddr sender counterparty image amount
            tokenContract lockTime now s = .ok (s1, evs)) :
    counterparty ≠ 0 ∧
    (s.agreements (sha2pack sender counterparty now image)).counterparty = 0 ∧
    ∀ id, (s1.agreements id).counterparty =
      if id = sha2pack sender counterparty now image then counterparty
      else (s.agreements id).counterparty := by
  by_cases h1 : counterparty = 0
  · simp only [Eth.ethLock, if_pos h1] at hc
    cases hc
  by_cases h2 : tokenContract = 0
  · simp only [Eth.ethLock, if_neg h1, if_pos h2] at hc
    cases hc
  by_cases h3 : ¬ lockTime > 0
  · simp only [Eth.ethLock, if_neg h1, if_neg h2, if_pos h3] at hc
    cases hc
  by_cases h4 : ¬ amount > 0
  · simp only [Eth.ethLock, if_neg h1, if_neg h2, if_neg h3, if_pos h4] at hc
    cases hc
  by_cases h5 : (s.agreements (sha2pack sender counterparty now image)).counterparty ≠ 0
  · simp only [Eth.ethLock, if_neg h1, if_neg h2, if_neg h3, if_neg h4, if_pos h5] at hc
    cases hc
  · simp only [Eth.ethLock, if_neg h1, if_neg h2, if_neg h3, if_neg h4, if_neg h5,
      Eth.putAgreement, Eth.putToken] at hc
    cases hm : Eth.erc20TransferFrom selfAddr sender selfAddr amount
        (s.tokens tokenContract) with
    | none =>
      rw [hm] at hc
      cases hc
    | some t1 =>
      rw [hm] at hc
      cases hc
      refine ⟨h1, not_ne_iff.mp h5, fun id => ?_⟩
      by_cases hid : id = sha2pack sender counterparty now image
      · simp [hid]
      · simp [hid]

/-- Helper: a successful Ethereum unlock requires an existing agreement
and never changes any counterparty field. -/
theorem ethUnlock_ok_inversion (selfAddr sender agreementID now : Nat)
    (s s1 : Eth.EthState) (evs : List Eth.Event)
    (hc : Eth.ethUnlock selfAddr sender agreementID now s = .ok (s1, evs)) :
    (s.agreements agreementID).counterparty ≠ 0 ∧
    ∀ id, (s1.agreements id).counterparty = (s.agreements id).counterparty := by
  by_cases h1 : (s.agreements agreementID).counterparty = 0
  · simp only [Eth.ethUnlock, if_pos h1] at hc
    cases hc
  by_cases h2 : (s.agreements agreementID).status ≠ .locked
  · simp only [Eth.ethUnlock, if_neg h1, if_pos h2] at hc
    cases hc
  by_cases h3 : ¬ now > (s.agreements agreementID).expiry
  · simp only [Eth.ethUnlock, if_neg h1, if_neg h2, if_pos h3] at hc
    cases hc
  by_cases h4 : sender ≠ (s.agreements agreementID).owner
  · simp only [Eth.ethUnlock, if_neg h1, if_neg h2, if_neg h3, if_pos h4] at hc
    cases hc
  · simp only [Eth.ethUnlock, if_neg h1, if_neg h2, if_neg h3, if_neg h4,
      Eth.putAgreement, Eth.putToken] at hc
    cases hm : Eth.erc20Transfer selfAddr sender (s.agreements agreementID).amount
        (s.tokens (s.agreements agreementID).tokenContract) with
    | none =>
      rw [hm] at hc
      cases hc
    | some t1 =>
      rw [hm] at hc
      cases hc
      refine ⟨h1, fun id => ?_⟩
      by_cases hid : id = agreementID
      · simp [hid]
      · simp [hid]

/-- Helper: a successful Ethereum claim requires an existing agreement
and never changes any counterparty field. -/
theorem ethClaim_ok_inversion (sha2bytes : List Nat → Nat)
    (selfAddr sender agreementID : Nat) (secret : List Nat) (now : Nat)
    (s s1 : Eth.EthState) (evs : List Eth.Event)
    (hc : Eth.ethClaim sha2bytes selfAddr sender agreementID secret now s = .ok (s1, evs)) :
    (s.agreements agreementID).counterparty ≠ 0 ∧
    ∀ id, (s1.agreements id).counterparty = (s.agreements id).counterparty := by
  by_cases h1 : (s.agreements agreementID).counterparty = 0
  · simp only [Eth.ethClaim, if_pos h1] at hc
    cases hc
  by_cases h2 : (s.agreements agreementID).status ≠ .locked
  · simp only [Eth.ethClaim, if_neg h1, if_pos h2] at hc
    cases hc
  by_cases h3 : ¬ now < (s.agreements agreementID).expiry
  · simp only [Eth.ethClaim, if_neg h1, if_neg h2, if_pos h3] at hc
    cases hc
  by_cases h4 : sender ≠ (s.agreements agreementID).counterparty
  · simp only [Eth.ethClaim, if_neg h1, if_neg h2, if_neg h3, if_pos h4] at hc
    cases hc
  by_cases h5 : sha2bytes secret ≠ (s.agreements agreementID).image
  · simp only [Eth.ethClaim, if_neg h1, if_neg h2, if_neg h3, if_neg h4, if_pos h5] at hc
    cases hc
  · simp only [Eth.ethClaim, if_neg h1, if_neg h2, if_neg h3, if_neg h4, if_neg h5,
      Eth.putAgreement, Eth.putToken] at hc
    cases hm : Eth.erc20Transfer selfAddr sender (s.agreements agreementID).amount
        (s.tokens (s.agreements agreementID).tokenContract) with
    | none =>
      rw [hm] at hc
      cases hc
    | some t1 =>
      rw [hm] at hc
      cases hc
      refine ⟨h1, fun id => ?_⟩
      by_cases hid : id = agreementID
      · simp [hid]
      · simp [hid]

/-- C10: over every reachable Ethereum state, an ID's stored
counterparty is non-zero exactly when a lock previously created an
agreement under that ID; hence the agreementExists modifier and the
duplicate-ID guard, which both test the counterparty sentinel, hold
exactly for previously created agreement IDs. -/
theorem eth_sentinel_existence (selfAddr : Nat) (s : Eth.EthState)
    (made : Nat → Prop) (h : Eth.Reach selfAddr s made) :
    ∀ id, ((s.agreements id).counterparty ≠ 0 ↔ made id) := by
  induction h with
  | init t =>
    intro id
    simp [Eth.Agreement.zero]
  | lock s0 made0 sha2pack sender cp img amt tc lt now s1 evs hr hc ih =>
    intro id
    obtain ⟨hcp, hdup, hupd⟩ :=
      ethLock_ok_inversion sha2pack selfAddr sender cp img amt tc lt now s0 s1 evs hc
    rw [hupd id]
    by_cases hid : id = sha2pack sender cp now img
    · simp [hid, hcp]
    · simp [hid, ih id]
  | unlock s0 made0 sender agreementID now s1 evs hr hc ih =>
    intro id
    obtain ⟨hcp, hupd⟩ := ethUnlock_ok_inversion selfAddr sender agreementID now s0 s1 evs hc
    rw [hupd id]
    exact ih id
  | claim s0 made0 sha2bytes sender agreementID secret now s1 evs hr hc ih =>
    intro id
    obtain ⟨hcp, hupd⟩ :=
      ethClaim_ok_inversion sha2bytes selfAddr sender agreementID secret now s0 s1 evs hc
    rw [hupd id]
    exact ih id

/-- Witness for C10: in the freshly constructed contract state, which is
reachable with an empty created set, the sentinel probe at ID 0 reads
zero, so the agreement does not exist. -/
theorem eth_sentinel_existence_witness :
    ¬ ((({ agreements := fun _ => Eth.Agreement.zero,
           tokens := fun _ => Eth.demoEthTok } : Eth.EthState).agreements 0).counterparty ≠ 0) :=
  fun hne =>
    (eth_sentinel_existence 7 _ _ (Eth.Reach.init (fun _ => Eth.demoEthTok)) 0).mp hne

/-- Witness for C9: approving 7 to b over a state where the persisted
approval is 5 succeeds, leaves the state unchanged, and the allowance
read still returns 5, not 7. -/
theorem approve_leaves_state_unchanged_witness :
    Fabric.tokenApprove "a" "b" 7 Fabric.demoTok = .ok Fabric.demoTok ∧
    Fabric.tokenAllowance "a" "b" Fabric.demoTok = 5 ∧ (5 : Nat) ≠ 7 := by
  have h := approve_leaves_state_unchanged Fabric.demoTok "a" "b" 7 (by decide)
  exact ⟨h.1, by decide, by decide⟩

end AtomicSwaps
